import Mathlib

/-!
Verification development for the MAGI council-of-agents pipeline
(`src/agents/magi_agent.py`, `src/agents/magi_deliberator.py`,
`src/agents/magi_system.py`, `src/agents/personalities.py`).

The external collaborators (the chat-completion model together with the
structured-output decoding layer, and the SQL conversation-history store)
are modelled as explicit parameters: a model invocation is a function from
the message list to `Except String α`, where `Except.error e` stands for a
raised exception whose `str()` is `e`; a history write outcome is an
`Except String Unit` parameter.  The repository code itself is translated
function by function below.
-/

namespace Magi

/-- A (role, content) chat turn, as stored in the conversation history and
as produced by prompt templates. -/
structure ChatMsg where
  role : String
  content : String
deriving Repr, DecidableEq

/-- A message of the agent exchange returned by `self.agent.invoke`
(`magi_agent.py`), carrying its `type` tag and its `text`. -/
structure AgentMsg where
  type : String
  text : String
deriving Repr, DecidableEq

/-- `AgentEvaluation` pydantic model (`magi_deliberator.py` lines 11-18). -/
structure AgentEvaluation where
  agent : String
  score : Nat
  reasoning : String
deriving Repr, DecidableEq

/-- `DeliberationResult` pydantic model (`magi_deliberator.py` lines 21-30). -/
structure DeliberationResult where
  evaluations : List AgentEvaluation
  synthesis : String
  voting_result : String
deriving Repr, DecidableEq

/-- `FinalResult` pydantic model (`magi_deliberator.py` lines 33-39). -/
structure FinalResult where
  evaluation : DeliberationResult
  final_answer : String
deriving Repr, DecidableEq

/-- The dict returned by `MagiAgent.respond`:
`{"agent": ..., "response": ..., "success": ...}`. -/
structure RespDict where
  agent : String
  response : String
  success : Bool
deriving Repr, DecidableEq

/-- A piece of a prompt template: literal text or a `\x7bvariable\x7d`
placeholder, as `ChatPromptTemplate` splits an f-string template. -/
inductive TPart where
  | lit (s : String)
  | var (v : String)
deriving Repr, DecidableEq

/-- Render one template part against a variable assignment. -/
def renderPart (get : String → String) : TPart → String
  | .lit s => s
  | .var v => get v

/-- Render a whole template against a variable assignment. -/
def renderParts (get : String → String) (ps : List TPart) : String :=
  String.join (ps.map (renderPart get))

/-- The system message of `self.evaluation_prompt`
(`magi_deliberator.py` lines 94-110); it contains no placeholder. -/
def evaluationSystemText : String :=
  "You are an independent judge evaluating responses from a council of AI agents.
                    Each agent has a different perspective: scientific, strategic, and ethical.

                    Your task is to:
                    1. Analyze each agent's response for quality, relevance, and insight
                    2. Identify strengths and weaknesses
                    3. Note any contradictions or complementary points
                    4. Provide a score (1-10) for each response based on:
                    - Relevance to the question
                    - Depth of analysis
                    - Use of evidence/reasoning
                    - Practical value

                    Be objective and fair in your evaluation."

/-- The human message template of `self.evaluation_prompt`
(`magi_deliberator.py` lines 111-123): its only placeholders are
`question` and `responses`. -/
def evaluationHumanParts : List TPart :=
  [.lit "Question: ", .var "question",
   .lit "

                    Agent Responses:
                    ", .var "responses",
   .lit "

                    Please evaluate each response and provide:
                    1. Individual scores and brief reasoning for each agent
                    2. Key insights from each perspective
                    3. Areas of agreement and disagreement
                    4. A synthesized recommendation"]

/-- Flatten a stored history to text, standing in for however the template
engine would stringify a `chat_history` value if it were referenced. -/
def renderHistory (h : List ChatMsg) : String :=
  String.intercalate "\n" (h.map (fun m => m.role ++ ": " ++ m.content))

/-- The variable assignment built from the dict passed to
`self.evaluation_chain.invoke` (`magi_deliberator.py` lines 175-181):
keys `question`, `responses` and `chat_history`. -/
def evalInputs (question responses : String) (chat_history : List ChatMsg) :
    String → String :=
  fun v =>
    if v = "question" then question
    else if v = "responses" then responses
    else if v = "chat_history" then renderHistory chat_history
    else ""

/-- The messages `self.evaluation_prompt` produces for the judge model. -/
def evaluationMessages (question responses : String)
    (chat_history : List ChatMsg) : List ChatMsg :=
  [⟨"system", evaluationSystemText⟩,
   ⟨"human", renderParts (evalInputs question responses chat_history)
      evaluationHumanParts⟩]

/-- `formatted_responses` (`magi_deliberator.py` lines 162-168): join the
successful responses as `Agent: ...\nResponse: ...` blocks. -/
def formattedResponses (responses : List RespDict) : String :=
  String.intercalate "\n\n"
    ((responses.filter (fun r => r.success)).map
      (fun r => "Agent: " ++ r.agent ++ "\nResponse: " ++ r.response))

/-- `DeliberatorAgent.evaluate_responses` (`magi_deliberator.py` lines
154-203).  `llm` is the structured-output chain tail
`self.llm.with_structured_output(DeliberationResult)`: an external call
that either yields a parsed `DeliberationResult` or raises. -/
def evaluate_responses (llm : List ChatMsg → Except String DeliberationResult)
    (chat_history : List ChatMsg) (question : String)
    (responses : List RespDict) : DeliberationResult :=
  match llm (evaluationMessages question (formattedResponses responses)
      chat_history) with
  | .ok evaluation => evaluation
  | .error e =>
    { evaluations :=
        (responses.filter (fun r => r.success)).map
          (fun r => { agent := r.agent, score := 1,
                      reasoning := "Evaluation failed." }),
      synthesis := "Error during evaluation: " ++ e,
      voting_result := "Error" }

/-- `response_map` (`magi_deliberator.py` line 215): the python dict built
by a comprehension over the successful responses, kept as the insertion
sequence (a later duplicate key overwrites an earlier one on lookup). -/
def response_map (responses : List RespDict) : List (String × String) :=
  (responses.filter (fun r => r.success)).map (fun r => (r.agent, r.response))

/-- `dict.get(key, default)` on an insertion sequence: the value of the
last inserted pair with this key, or the default. -/
def dictGet (m : List (String × String)) (k dflt : String) : String :=
  match m.reverse.find? (fun p => p.1 == k) with
  | some p => p.2
  | none => dflt

/-- The `scored_items` list built by `DeliberatorAgent.synthesise_final_answer`
(`magi_deliberator.py` lines 212-237). -/
def scoredItems (responses : List RespDict)
    (evaluation : DeliberationResult) : List String :=
  if evaluation.evaluations.isEmpty then
    (responses.filter (fun r => r.success)).map
      (fun r => "Agent: " ++ r.agent ++
        "\nScore: N/A\nReasoning: Evaluation not available\nFull Response: " ++
        r.response)
  else
    evaluation.evaluations.map
      (fun ev => "Agent: " ++ ev.agent ++ "\nScore: " ++ toString ev.score ++
        "/10\nReasoning: " ++ ev.reasoning ++ "\nFull Response: " ++
        dictGet (response_map responses) ev.agent "No response available")

/-- The system message of `self.voting_prompt`
(`magi_deliberator.py` lines 135-139); no placeholder. -/
def votingSystemText : String :=
  "You are facilitating a voting process among AI agents.
                    Based on the responses and your analysis, determine which approach or answer is most appropriate.
                    Consider all perspectives but make a clear decision."

/-- The human message template of `self.voting_prompt`
(`magi_deliberator.py` lines 141-150): placeholders `question` and
`scored_responses`. -/
def votingHumanParts : List TPart :=
  [.lit "Question: ", .var "question",
   .lit "

                    Responses with scores:
                    ", .var "scored_responses",
   .lit "

                    Based on the analysis, which response or combination of responses best answers the question?
                    Provide a final synthesized answer that incorporates the best elements."]

/-- The variable assignment for `self.voting_prompt.format_messages`
(`magi_deliberator.py` lines 242-244). -/
def votingInputs (question scored_responses : String) : String → String :=
  fun v =>
    if v = "question" then question
    else if v = "scored_responses" then scored_responses
    else ""

/-- The messages `self.voting_prompt` produces for the model. -/
def votingMessages (question scored_responses : String) : List ChatMsg :=
  [⟨"system", votingSystemText⟩,
   ⟨"human", renderParts (votingInputs question scored_responses)
      votingHumanParts⟩]

/-- `DeliberatorAgent.synthesise_final_answer` (`magi_deliberator.py` lines
205-258).  `llm` is the external `self.llm.invoke` returning the reply
content, or raising. -/
def synthesise_final_answer (llm : List ChatMsg → Except String String)
    (question : String) (responses : List RespDict)
    (evaluation : DeliberationResult) : String :=
  match llm (votingMessages question
      (String.intercalate "\n\n" (scoredItems responses evaluation))) with
  | .ok content => content
  | .error e => "Error synthesizing answer: " ++ e

/-- `DeliberatorAgent.process_magi_decision` (`magi_deliberator.py` lines
260-299): evaluate, synthesise, then append the question and the final
answer to the deliberator's own history.  Returns the `FinalResult`
together with the updated history. -/
def process_magi_decision
    (evalLlm : List ChatMsg → Except String DeliberationResult)
    (voteLlm : List ChatMsg → Except String String)
    (question : String) (responses : List RespDict)
    (delibHist : List ChatMsg) : FinalResult × List ChatMsg :=
  let evaluation := evaluate_responses evalLlm delibHist question responses
  let final_answer := synthesise_final_answer voteLlm question responses evaluation
  ({ evaluation := evaluation, final_answer := final_answer },
   delibHist ++ [⟨"human", question⟩, ⟨"ai", final_answer⟩])

/-- `next(m for m in reversed(response["messages"]) if m.type == "ai")`
(`magi_agent.py` lines 134-138), with `none` for the `StopIteration` case. -/
def lastAiMessage (msgs : List AgentMsg) : Option AgentMsg :=
  msgs.reverse.find? (fun m => m.type == "ai")

/-- `MagiAgent.respond` (`magi_agent.py` lines 89-154).  The external
outcomes are passed in: `invokeRes` is the `self.agent.invoke` exchange (or
a raised exception), and `addUserRes` / `addAiRes` are the outcomes of the
two history-store writes.  `str(StopIteration())` is the empty string, so
the missing-ai-message branch reports `"Error: "`.  Returns the response
dict and the agent's history after the call. -/
def respond (name : String) (invokeRes : Except String (List AgentMsg))
    (addUserRes addAiRes : Except String Unit) (query : String)
    (h : List ChatMsg) : RespDict × List ChatMsg :=
  match invokeRes with
  | .error e => ({ agent := name, response := "Error: " ++ e, success := false }, h)
  | .ok msgs =>
    match lastAiMessage msgs with
    | none => ({ agent := name, response := "Error: " ++ "", success := false }, h)
    | some m =>
      match addUserRes with
      | .error e =>
        ({ agent := name, response := "Error: " ++ e, success := false }, h)
      | .ok _ =>
        let h1 := h ++ [⟨"human", query⟩]
        match addAiRes with
        | .error e =>
          ({ agent := name, response := "Error: " ++ e, success := false }, h1)
        | .ok _ =>
          ({ agent := name, response := m.text, success := true },
           h1 ++ [⟨"ai", m.text⟩])

/-- The tool list assembled by `MagiAgent.__init__` (`magi_agent.py` lines
66-81): search tool when enabled, then the RAG tool when enabled and its
construction did not raise; a raise only prints and skips the append. -/
def magiAgentTools (enable_search enable_rag : Bool) (searchTool : String)
    (ragToolRes : Except String String) : List String :=
  let tools : List String := []
  let tools := if enable_search then tools ++ [searchTool] else tools
  if enable_rag then
    match ragToolRes with
    | .ok t => tools ++ [t]
    | .error _ => tools
  else tools

/-- The state `MagiAgent.__init__` ends with: construction always
completes, holding the assembled tool list and an empty in-session view of
its history table. -/
structure MagiAgentState where
  name : String
  tools : List String
  history : List ChatMsg
deriving Repr, DecidableEq

/-- `MagiAgent.__init__` (`magi_agent.py` lines 16-87), restricted to the
state the claims are about. -/
def magiAgentInit (name : String) (enable_search enable_rag : Bool)
    (searchTool : String) (ragToolRes : Except String String) : MagiAgentState :=
  { name := name,
    tools := magiAgentTools enable_search enable_rag searchTool ragToolRes,
    history := [] }

/-- One entry of `PERSONALITIES` (`personalities.py`). -/
structure Personality where
  name : String
  role : String
  system_prompt : String
deriving Repr, DecidableEq

/-- `PERSONALITIES["MELCHIOR"]` (`personalities.py` lines 7-20). -/
def melchior : Personality :=
  { name := "MELCHIOR", role := "Scientist",
    system_prompt := "You are MELCHIOR-1, a scientific and analytical AI agent.
        Your approach is data-driven, logical, and evidence-based. You prioritize:
        - Empirical evidence and scientific method
        - Statistical analysis and probability
        - Rigorous testing and validation
        - Objectivity and reproducibility

        When responding, always ground your answers in verifiable facts and scientific reasoning.
        Be skeptical of claims without evidence. Use search tools to find relevant research and data.
        " }

/-- `PERSONALITIES["BALTHASAR"]` (`personalities.py` lines 21-34). -/
def balthasar : Personality :=
  { name := "BALTHASAR", role := "Strategist",
    system_prompt := "You are BALTHASAR-2, a strategic and pragmatic AI agent.
        Your approach focuses on practical outcomes and real-world implications. You prioritize:
        - Cost-benefit analysis
        - Risk assessment and mitigation
        - Long-term strategic planning
        - Feasibility and implementation

        When responding, consider practical constraints, potential obstacles, and actionable steps.
        Think about real-world applications and consequences. Use search tools to find relevant case studies and examples.
        " }

/-- `PERSONALITIES["CASPER"]` (`personalities.py` lines 35-49). -/
def casper : Personality :=
  { name := "CASPER", role := "Ethicist",
    system_prompt := "You are CASPER-3, an ethical and philosophical AI agent.
        Your approach emphasizes moral considerations and human values. You prioritize:
        - Ethical implications and moral frameworks
        - Human welfare and social impact
        - Fairness, justice, and rights
        - Long-term societal consequences

        When responding, always consider the ethical dimensions and impact on people.
        Question assumptions about what should be done, not just what can be done.
        Use search tools to find relevant ethical discussions and perspectives.
" }

/-- `get_all_personalities` (`personalities.py` lines 53-55):
`list(PERSONALITIES.values())` in the dict's insertion order. -/
def get_all_personalities : List Personality :=
  [melchior, balthasar, casper]

/-- The per-round external outcomes of one `MagiAgent`: its name plus the
outcomes of its model invocation and its two history writes for the
question being asked. -/
structure AgentSpec where
  name : String
  invokeRes : Except String (List AgentMsg)
  addUserRes : Except String Unit
  addAiRes : Except String Unit

/-- `agent.respond(question)` for an agent with its own history. -/
def agentRespond (a : AgentSpec) (query : String) (h : List ChatMsg) :
    RespDict × List ChatMsg :=
  respond a.name a.invokeRes a.addUserRes a.addAiRes query h

/-- The mutable state of a `MagiSystem`: each agent with its own history
table, and the deliberator's history table. -/
structure SystemState where
  agents : List (AgentSpec × List ChatMsg)
  delibHist : List ChatMsg

/-- The dict returned by `MagiSystem.query_magi` (`magi_system.py` lines
124-130), minus the wall-clock timestamp. -/
structure CouncilRound where
  question : String
  agent_responses : List RespDict
  evaluation : DeliberationResult
  final_answer : String

/-- `MagiSystem.query_magi` (`magi_system.py` lines 98-130): query every
agent in order, one at a time, collecting all responses, then hand the
complete list to the deliberator.  Returns the round record and the
updated state. -/
def query_magi (evalLlm : List ChatMsg → Except String DeliberationResult)
    (voteLlm : List ChatMsg → Except String String)
    (s : SystemState) (question : String) : CouncilRound × SystemState :=
  let results := s.agents.map (fun p => (p.1, agentRespond p.1 question p.2))
  let responses := results.map (fun q => q.2.1)
  let r := process_magi_decision evalLlm voteLlm question responses s.delibHist
  ({ question := question, agent_responses := responses,
     evaluation := r.1.evaluation, final_answer := r.1.final_answer },
   { agents := results.map (fun q => (q.1, q.2.2)), delibHist := r.2 })

/-- `MagiSystem` construction of its agent list (`magi_system.py` lines
62-79): one agent per entry of `get_all_personalities()`, in that order,
each named after its personality, with a fresh history table. -/
def initialSystem (oracle : Personality → Except String (List AgentMsg))
    (userW aiW : Personality → Except String Unit) : SystemState :=
  { agents := get_all_personalities.map
      (fun p => ({ name := p.name, invokeRes := oracle p,
                   addUserRes := userW p, addAiRes := aiW p }, ([] : List ChatMsg))),
    delibHist := [] }

/-- `MagiAgent.clear_memory` (`magi_agent.py` lines 156-158): empty this
agent's history table. -/
def clear_memory_agent (p : AgentSpec × List ChatMsg) : AgentSpec × List ChatMsg :=
  (p.1, [])

/-- `MagiSystem.clear_all_memory` (`magi_system.py` lines 132-137):
`clear_memory()` on every agent, then on the deliberator. -/
def clear_all_memory (s : SystemState) : SystemState :=
  { agents := s.agents.map clear_memory_agent, delibHist := [] }

/-! ## Helper lemmas -/

theorem dictGet_mem (l : List (String × String)) (k v dflt : String)
    (hmem : (k, v) ∈ l) (hnd : (l.map Prod.fst).Nodup) : dictGet l k dflt = v := by
  unfold dictGet
  have hmem2 : (k, v) ∈ l.reverse := List.mem_reverse.mpr hmem
  have hsome : (l.reverse.find? (fun p => p.1 == k)).isSome := by
    rw [List.find?_isSome]
    exact ⟨(k, v), hmem2, by simp⟩
  obtain ⟨a, ha⟩ := Option.isSome_iff_exists.mp hsome
  have hp := List.find?_some ha
  have hal : a ∈ l := List.mem_reverse.mp (List.mem_of_find?_eq_some ha)
  have hkey : a.1 = k := by simpa using hp
  have haeq : a = (k, v) := by
    apply List.inj_on_of_nodup_map hnd hal hmem
    simp [hkey]
  rw [ha, haeq]

theorem dictGet_not_mem (l : List (String × String)) (k dflt : String)
    (hnone : ∀ p ∈ l, p.1 ≠ k) : dictGet l k dflt = dflt := by
  unfold dictGet
  have hfind : l.reverse.find? (fun p => p.1 == k) = none := by
    rw [List.find?_eq_none]
    intro p hpl
    simpa using hnone p (List.mem_reverse.mp hpl)
  rw [hfind]

theorem string_append_ne_empty (s e : String) (hs : s.length ≠ 0) : s ++ e ≠ "" := by
  intro hcontra
  have h2 := congrArg String.length hcontra
  simp [String.length_append] at h2
  exact hs h2.1

theorem respond_agent_name (name : String) (invokeRes : Except String (List AgentMsg))
    (addUserRes addAiRes : Except String Unit) (query : String) (h : List ChatMsg) :
    (respond name invokeRes addUserRes addAiRes query h).1.agent = name := by
  cases invokeRes with
  | error e => rfl
  | ok msgs =>
    cases hm : lastAiMessage msgs with
    | none => simp [respond, hm]
    | some m =>
      cases addUserRes with
      | error e => simp [respond, hm]
      | ok u =>
        cases addAiRes with
        | error e => simp [respond, hm]
        | ok u2 => simp [respond, hm]

/-! ## Claim theorems -/

/-- C1: the Deliberator's `evaluate_responses` never raises: when the
structured-output chain fails (the judge's output cannot be obtained or
parsed), the returned fallback has one `AgentEvaluation` per successful
input answer with score 1 and a failure-note rationale, a synthesis
containing the error text (in particular non-empty, never null/absent),
and voting_result `"Error"`; with zero successful answers the fallback has
empty `evaluations` and is still well-typed. -/
theorem evaluate_responses_never_raises
    (llm : List ChatMsg → Except String DeliberationResult)
    (chat_history : List ChatMsg) (question : String) (responses : List RespDict)
    (e : String)
    (herr : llm (evaluationMessages question (formattedResponses responses)
        chat_history) = Except.error e) :
    (evaluate_responses llm chat_history question responses).evaluations =
      (responses.filter (fun r => r.success)).map
        (fun r => { agent := r.agent, score := 1, reasoning := "Evaluation failed." }) ∧
    (evaluate_responses llm chat_history question responses).evaluations.length =
      (responses.filter (fun r => r.success)).length ∧
    (evaluate_responses llm chat_history question responses).synthesis =
      "Error during evaluation: " ++ e ∧
    (evaluate_responses llm chat_history question responses).synthesis ≠ "" ∧
    (evaluate_responses llm chat_history question responses).voting_result = "Error" := by
  unfold evaluate_responses
  rw [herr]
  refine ⟨rfl, by simp, rfl, ?_, rfl⟩
  exact string_append_ne_empty "Error during evaluation: " e (by decide)

/-- Witness for C1 at a concrete input: one successful and one failed
answer, with a judge whose output cannot be parsed. -/
theorem evaluate_responses_never_raises_witness :
    (evaluate_responses (fun _ => Except.error "boom") [] "Q"
        [⟨"MELCHIOR", "A", true⟩, ⟨"BALTHASAR", "Error: x", false⟩]).synthesis =
      "Error during evaluation: boom" ∧
    (evaluate_responses (fun _ => Except.error "boom") [] "Q"
        [⟨"MELCHIOR", "A", true⟩, ⟨"BALTHASAR", "Error: x", false⟩]).evaluations.length = 1 := by
  have h := evaluate_responses_never_raises (fun _ => Except.error "boom") [] "Q"
    [⟨"MELCHIOR", "A", true⟩, ⟨"BALTHASAR", "Error: x", false⟩] "boom" rfl
  refine ⟨h.2.2.1, ?_⟩
  rw [h.2.1]
  decide

/-- C2 counterexample: when the chain fails, the fallback synthesis is the
error description prefixed with `"Error during evaluation: "`, not the raw
model text — the raw text is never recovered by the Deliberator itself. -/
theorem evaluate_responses_fallback_not_raw_text :
    (evaluate_responses (fun _ => Except.error "I think option B is best.") [] "Q"
        [⟨"MELCHIOR", "A", true⟩]).synthesis ≠ "I think option B is best." := by
  decide

/-- C2 (amended): the Deliberator coerces raw judge output by a two-tier
policy of its own: it delegates structural parsing — including any
extraction of a structured block from a fenced wrapper — to the external
structured-output chain and returns the chain's parsed result unchanged;
on any chain failure it constructs the degraded fallback (score-1
evaluations per successful answer, voting_result `"Error"`) whose
synthesis is the error text prefixed with `"Error during evaluation: "`. -/
theorem evaluate_responses_delegated_two_tier
    (llm : List ChatMsg → Except String DeliberationResult)
    (chat_history : List ChatMsg) (question : String)
    (responses : List RespDict) :
    (∀ d, llm (evaluationMessages question (formattedResponses responses)
        chat_history) = Except.ok d →
      evaluate_responses llm chat_history question responses = d) ∧
    (∀ e, llm (evaluationMessages question (formattedResponses responses)
        chat_history) = Except.error e →
      evaluate_responses llm chat_history question responses =
        { evaluations := (responses.filter (fun r => r.success)).map
            (fun r => { agent := r.agent, score := 1,
                        reasoning := "Evaluation failed." }),
          synthesis := "Error during evaluation: " ++ e,
          voting_result := "Error" }) := by
  constructor
  · intro d hd
    unfold evaluate_responses
    rw [hd]
  · intro e he
    unfold evaluate_responses
    rw [he]

/-- Witness for the amended C2: a chain that parses directly has its
result passed through unchanged. -/
theorem evaluate_responses_delegated_two_tier_witness :
    evaluate_responses (fun _ => Except.ok ⟨[], "S", "V"⟩) [] "Q" [] =
      ⟨[], "S", "V"⟩ :=
  (evaluate_responses_delegated_two_tier (fun _ => Except.ok ⟨[], "S", "V"⟩)
    [] "Q" []).1 ⟨[], "S", "V"⟩ rfl

/-- C9: the evaluation prompt contains no placeholder for the stored
conversation history, so for any two stored history contents (and the same
question and formatted answers) the messages sent to the judge model — and
hence the whole `evaluate_responses` outcome — are identical. -/
theorem evaluation_prompt_history_noninterference (question fr : String)
    (h1 h2 : List ChatMsg) :
    evaluationMessages question fr h1 = evaluationMessages question fr h2 ∧
    ∀ (llm : List ChatMsg → Except String DeliberationResult)
      (rs : List RespDict),
      evaluate_responses llm h1 question rs = evaluate_responses llm h2 question rs :=
  ⟨rfl, fun _ _ => rfl⟩

/-- C10: a failure of `get_rag_tool` during `MagiAgent.__init__` with
`enable_rag` true is not fatal: construction completes, the RAG tool is
simply omitted, and the tool list equals the one of a rag-disabled agent. -/
theorem magi_agent_init_rag_failure_resilient (name : String)
    (enable_search : Bool) (searchTool : String) (e : String) :
    (magiAgentInit name enable_search true searchTool (Except.error e)).tools =
      (if enable_search then [searchTool] else []) ∧
    (magiAgentInit name enable_search true searchTool (Except.error e)).tools =
      (magiAgentInit name enable_search false searchTool (Except.error e)).tools ∧
    (magiAgentInit name enable_search true searchTool (Except.error e)).name = name := by
  unfold magiAgentInit magiAgentTools
  cases enable_search <;> simp

/-- C3: `MagiAgent.respond` never propagates an exception: any error
raised by the model connection or the history store — and the model
exchange containing no model-authored (`"ai"`) message, whose
`StopIteration` stringifies to the empty message — is caught at the
operation boundary and converted into a result with `success = false` and
response text of the form `"Error: <message>"`. -/
theorem respond_never_raises (name : String)
    (invokeRes : Except String (List AgentMsg))
    (addUserRes addAiRes : Except String Unit)
    (query : String) (h : List ChatMsg) :
    ((respond name invokeRes addUserRes addAiRes query h).1.success = false →
      ∃ m, (respond name invokeRes addUserRes addAiRes query h).1.response =
        "Error: " ++ m) ∧
    (∀ msgs, invokeRes = Except.ok msgs → lastAiMessage msgs = none →
      (respond name invokeRes addUserRes addAiRes query h).1.success = false ∧
      (respond name invokeRes addUserRes addAiRes query h).1.response = "Error: ") := by
  cases invokeRes with
  | error e =>
    refine ⟨fun _ => ⟨e, rfl⟩, ?_⟩
    intro msgs hm
    cases hm
  | ok msgs =>
    cases hm : lastAiMessage msgs with
    | none =>
      refine ⟨fun _ => ⟨"", by simp [respond, hm]⟩, ?_⟩
      intro msgs2 hok hnone
      cases hok
      simp [respond, hm]
    | some m =>
      cases addUserRes with
      | error e =>
        refine ⟨fun _ => ⟨e, by simp [respond, hm]⟩, ?_⟩
        intro msgs2 hok hnone
        cases hok
        rw [hm] at hnone
        cases hnone
      | ok u =>
        cases addAiRes with
        | error e =>
          refine ⟨fun _ => ⟨e, by simp [respond, hm]⟩, ?_⟩
          intro msgs2 hok hnone
          cases hok
          rw [hm] at hnone
          cases hnone
        | ok u2 =>
          refine ⟨fun hs => ?_, ?_⟩
          · exfalso
            simp [respond, hm] at hs
          · intro msgs2 hok hnone
            cases hok
            rw [hm] at hnone
            cases hnone

/-- Witness for C3: an exchange with no model-authored message is reported
as a failure with the (empty-messaged) error text, not a crash. -/
theorem respond_never_raises_witness :
    (respond "MELCHIOR" (Except.ok [⟨"human", "q"⟩]) (Except.ok ())
        (Except.ok ()) "q" []).1.success = false ∧
    (respond "MELCHIOR" (Except.ok [⟨"human", "q"⟩]) (Except.ok ())
        (Except.ok ()) "q" []).1.response = "Error: " :=
  (respond_never_raises "MELCHIOR" (Except.ok [⟨"human", "q"⟩]) (Except.ok ())
    (Except.ok ()) "q" []).2 [⟨"human", "q"⟩] rfl (by decide)

/-- C4 counterexample: a failed attempt that does change history.  When the
first history write (the question) succeeds and the second (the answer)
raises, `respond` returns a failure but the question stays appended: the
history is not left unchanged and a partial write has occurred. -/
theorem respond_partial_write_cex :
    (respond "MELCHIOR" (Except.ok [⟨"ai", "fine"⟩]) (Except.ok ())
        (Except.error "database is locked") "q" []).1.success = false ∧
    (respond "MELCHIOR" (Except.ok [⟨"ai", "fine"⟩]) (Except.ok ())
        (Except.error "database is locked") "q" []).2 = [⟨"human", "q"⟩] ∧
    ([⟨"human", "q"⟩] : List ChatMsg) ≠ [] := by
  decide

/-- C4 (amended): on success exactly the question and then the final
answer text are appended to the conversation history as two new turns in
that order; on a failed attempt the history is unchanged — except that if
the history store itself fails between the two appends, the question
remains appended without the answer (a partial write). -/
theorem respond_history_discipline (name : String)
    (invokeRes : Except String (List AgentMsg))
    (addUserRes addAiRes : Except String Unit)
    (query : String) (h : List ChatMsg) :
    ((respond name invokeRes addUserRes addAiRes query h).1.success = true →
      (respond name invokeRes addUserRes addAiRes query h).2 =
        h ++ [⟨"human", query⟩,
          ⟨"ai", (respond name invokeRes addUserRes addAiRes query h).1.response⟩]) ∧
    ((respond name invokeRes addUserRes addAiRes query h).1.success = false →
      (respond name invokeRes addUserRes addAiRes query h).2 = h ∨
        ((respond name invokeRes addUserRes addAiRes query h).2 =
            h ++ [⟨"human", query⟩] ∧
          ∃ e, addAiRes = Except.error e)) := by
  cases invokeRes with
  | error e =>
    refine ⟨fun hs => ?_, fun _ => Or.inl rfl⟩
    exact absurd hs (by simp [respond])
  | ok msgs =>
    cases hm : lastAiMessage msgs with
    | none =>
      refine ⟨fun hs => ?_, fun _ => ?_⟩
      · exfalso; simp [respond, hm] at hs
      · left; simp [respond, hm]
    | some m =>
      cases addUserRes with
      | error e =>
        refine ⟨fun hs => ?_, fun _ => ?_⟩
        · exfalso; simp [respond, hm] at hs
        · left; simp [respond, hm]
      | ok u =>
        cases addAiRes with
        | error e =>
          refine ⟨fun hs => ?_, fun _ => ?_⟩
          · exfalso; simp [respond, hm] at hs
          · right; exact ⟨by simp [respond, hm], e, rfl⟩
        | ok u2 =>
          refine ⟨fun hs => ?_, fun hs => ?_⟩
          · simp [respond, hm]
          · exfalso; simp [respond, hm] at hs

/-- Witness for the amended C4: a successful call appends exactly the
question and then the answer, in that order. -/
theorem respond_history_discipline_witness :
    (respond "MELCHIOR" (Except.ok [⟨"ai", "fine"⟩]) (Except.ok ())
        (Except.ok ()) "q" []).2 = [⟨"human", "q"⟩, ⟨"ai", "fine"⟩] :=
  ((respond_history_discipline "MELCHIOR" (Except.ok [⟨"ai", "fine"⟩])
    (Except.ok ()) (Except.ok ()) "q" []).1 (by decide)).trans (by decide)

/-- C5: `query_magi` collects exactly one answer per configured agent,
querying them one at a time in registration order (a failure in one is
itself collected, never skipping or aborting the rest), and the
Deliberator is invoked only after all agents have completed, on the full
ordered response list; for a system built from `get_all_personalities`
the response order is MELCHIOR, BALTHASAR, CASPER. -/
theorem query_magi_collects_all
    (evalLlm : List ChatMsg → Except String DeliberationResult)
    (voteLlm : List ChatMsg → Except String String)
    (s : SystemState) (question : String) :
    (query_magi evalLlm voteLlm s question).1.agent_responses.length =
      s.agents.length ∧
    (query_magi evalLlm voteLlm s question).1.agent_responses =
      s.agents.map (fun p => (agentRespond p.1 question p.2).1) ∧
    (query_magi evalLlm voteLlm s question).1.agent_responses.map
        (fun r => r.agent) = s.agents.map (fun p => p.1.name) ∧
    (query_magi evalLlm voteLlm s question).1.evaluation =
      (process_magi_decision evalLlm voteLlm question
        ((query_magi evalLlm voteLlm s question).1.agent_responses)
        s.delibHist).1.evaluation ∧
    ∀ (oracle : Personality → Except String (List AgentMsg))
      (userW aiW : Personality → Except String Unit),
      (query_magi evalLlm voteLlm (initialSystem oracle userW aiW)
          question).1.agent_responses.map (fun r => r.agent) =
        ["MELCHIOR", "BALTHASAR", "CASPER"] := by
  have hresp : ∀ (s2 : SystemState),
      (query_magi evalLlm voteLlm s2 question).1.agent_responses =
        s2.agents.map (fun p => (agentRespond p.1 question p.2).1) := by
    intro s2
    simp [query_magi, List.map_map]
  have hagent : ∀ (s2 : SystemState),
      (query_magi evalLlm voteLlm s2 question).1.agent_responses.map
          (fun r => r.agent) = s2.agents.map (fun p => p.1.name) := by
    intro s2
    rw [hresp s2, List.map_map]
    apply List.map_congr_left
    intro p _
    exact respond_agent_name p.1.name p.1.invokeRes p.1.addUserRes p.1.addAiRes
      question p.2
  refine ⟨?_, hresp s, hagent s, rfl, ?_⟩
  · rw [hresp s, List.length_map]
  · intro oracle userW aiW
    rw [hagent (initialSystem oracle userW aiW)]
    simp [initialSystem, get_all_personalities, melchior, balthasar, casper]

/-- C6: when `synthesise_final_answer` builds the per-persona scored
blocks: an evaluated persona with a matching successful answer (persona
names of successful answers being distinct) is paired with that answer's
text; an evaluated persona with no matching successful answer yields the
text `"No response available"`; and when the evaluations sequence is
empty, the blocks come from the raw successful responses with
`"Evaluation not available"` as the scoring text. -/
theorem scoredItems_blocks (responses : List RespDict)
    (evaluation : DeliberationResult) :
    (evaluation.evaluations = [] →
      scoredItems responses evaluation =
        (responses.filter (fun r => r.success)).map
          (fun r => "Agent: " ++ r.agent ++
            "\nScore: N/A\nReasoning: Evaluation not available\nFull Response: " ++
            r.response)) ∧
    (∀ ev ∈ evaluation.evaluations, ∀ r ∈ responses, r.success = true →
      ev.agent = r.agent →
      ((responses.filter (fun x => x.success)).map (fun x => x.agent)).Nodup →
      ("Agent: " ++ ev.agent ++ "\nScore: " ++ toString ev.score ++
          "/10\nReasoning: " ++ ev.reasoning ++ "\nFull Response: " ++
          r.response) ∈ scoredItems responses evaluation) ∧
    (∀ ev ∈ evaluation.evaluations,
      (∀ r ∈ responses, r.success = true → r.agent ≠ ev.agent) →
      ("Agent: " ++ ev.agent ++ "\nScore: " ++ toString ev.score ++
          "/10\nReasoning: " ++ ev.reasoning ++
          "\nFull Response: No response available") ∈
        scoredItems responses evaluation) := by
  have hkeys : (response_map responses).map Prod.fst =
      (responses.filter (fun x => x.success)).map (fun x => x.agent) := by
    simp [response_map, List.map_map]
  refine ⟨?_, ?_, ?_⟩
  · intro hemp
    simp [scoredItems, hemp]
  · intro ev hev r hr hsucc hag hnd
    have hne : evaluation.evaluations.isEmpty = false := by
      cases h0 : evaluation.evaluations with
      | nil => rw [h0] at hev; cases hev
      | cons a l => rfl
    have hget : dictGet (response_map responses) ev.agent
        "No response available" = r.response := by
      apply dictGet_mem
      · rw [hag]
        simp only [response_map, List.mem_map]
        exact ⟨r, List.mem_filter.mpr ⟨hr, hsucc⟩, rfl⟩
      · rw [hkeys]; exact hnd
    simp only [scoredItems, hne, Bool.false_eq_true, if_false]
    exact List.mem_map.mpr ⟨ev, hev, by rw [hget]⟩
  · intro ev hev hnomatch
    have hne : evaluation.evaluations.isEmpty = false := by
      cases h0 : evaluation.evaluations with
      | nil => rw [h0] at hev; cases hev
      | cons a l => rfl
    have hget : dictGet (response_map responses) ev.agent
        "No response available" = "No response available" := by
      apply dictGet_not_mem
      intro p hp
      simp only [response_map, List.mem_map] at hp
      obtain ⟨x, hx, hpx⟩ := hp
      have hxmem := List.mem_filter.mp hx
      rw [← hpx]
      exact hnomatch x hxmem.1 hxmem.2
    simp only [scoredItems, hne, Bool.false_eq_true, if_false]
    refine List.mem_map.mpr ⟨ev, hev, ?_⟩
    rw [hget, String.append_assoc]
    rfl

/-- Witness for C6: a matched evaluation is paired with the matching
successful answer's text. -/
theorem scoredItems_blocks_witness :
    ("Agent: MELCHIOR\nScore: 8/10\nReasoning: good\nFull Response: A") ∈
      scoredItems [⟨"MELCHIOR", "A", true⟩]
        ⟨[⟨"MELCHIOR", 8, "good"⟩], "s", "v"⟩ := by
  have h := (scoredItems_blocks [⟨"MELCHIOR", "A", true⟩]
      ⟨[⟨"MELCHIOR", 8, "good"⟩], "s", "v"⟩).2.1
    ⟨"MELCHIOR", 8, "good"⟩ (by decide) ⟨"MELCHIOR", "A", true⟩ (by decide)
    (by decide) (by decide) (by decide)
  simpa using h

/-- C7: the Deliberator's synthesize step never raises: a model-invocation
error is converted into an error-describing string, a successful
invocation's content is returned, and after the full decision process the
pair (question, final_answer) is appended to the Deliberator's own
conversation history. -/
theorem synthesise_resilient_and_history
    (evalLlm : List ChatMsg → Except String DeliberationResult)
    (voteLlm : List ChatMsg → Except String String)
    (question : String) (responses : List RespDict)
    (delibHist : List ChatMsg) :
    (∀ e, voteLlm (votingMessages question (String.intercalate "\n\n"
        (scoredItems responses
          (evaluate_responses evalLlm delibHist question responses)))) =
        Except.error e →
      synthesise_final_answer voteLlm question responses
          (evaluate_responses evalLlm delibHist question responses) =
        "Error synthesizing answer: " ++ e) ∧
    (∀ c, voteLlm (votingMessages question (String.intercalate "\n\n"
        (scoredItems responses
          (evaluate_responses evalLlm delibHist question responses)))) =
        Except.ok c →
      synthesise_final_answer voteLlm question responses
          (evaluate_responses evalLlm delibHist question responses) = c) ∧
    (process_magi_decision evalLlm voteLlm question responses delibHist).2 =
      delibHist ++ [⟨"human", question⟩,
        ⟨"ai", (process_magi_decision evalLlm voteLlm question responses
          delibHist).1.final_answer⟩] := by
  refine ⟨?_, ?_, rfl⟩
  · intro e he
    unfold synthesise_final_answer
    rw [he]
  · intro c hc
    unfold synthesise_final_answer
    rw [hc]

/-- Witness for C7: with the voting model unavailable, the final answer is
the error-describing string rather than an exception. -/
theorem synthesise_resilient_and_history_witness :
    synthesise_final_answer (fun _ => Except.error "down") "Q" []
        (evaluate_responses (fun _ => Except.ok ⟨[], "s", "v"⟩) [] "Q" []) =
      "Error synthesizing answer: down" :=
  (synthesise_resilient_and_history (fun _ => Except.ok ⟨[], "s", "v"⟩)
    (fun _ => Except.error "down") "Q" [] []).1 "down" rfl

/-- C8: memory reset is idempotent: `clear_all_memory` clears every
agent's history and the Deliberator's; doing it twice leaves the same
state as doing it once, and after a reset every agent's session history
reads as zero prior turns. -/
theorem clear_all_memory_idempotent (s : SystemState) :
    clear_all_memory (clear_all_memory s) = clear_all_memory s ∧
    (∀ p ∈ (clear_all_memory s).agents, p.2 = ([] : List ChatMsg)) ∧
    (clear_all_memory s).delibHist = [] := by
  refine ⟨?_, ?_, rfl⟩
  · simp only [clear_all_memory, List.map_map]
    rfl
  · intro p hp
    simp only [clear_all_memory, clear_memory_agent, List.mem_map] at hp
    obtain ⟨q, _, hq⟩ := hp
    rw [← hq]

/-- Witness for C8 at a concrete state with non-empty histories. -/
theorem clear_all_memory_idempotent_witness :
    clear_all_memory (clear_all_memory
        ⟨[({ name := "MELCHIOR", invokeRes := Except.error "x",
             addUserRes := Except.ok (), addAiRes := Except.ok () },
           [⟨"human", "old"⟩])], [⟨"ai", "z"⟩]⟩) =
      clear_all_memory
        ⟨[({ name := "MELCHIOR", invokeRes := Except.error "x",
             addUserRes := Except.ok (), addAiRes := Except.ok () },
           [⟨"human", "old"⟩])], [⟨"ai", "z"⟩]⟩ ∧
    (clear_all_memory
        ⟨[({ name := "MELCHIOR", invokeRes := Except.error "x",
             addUserRes := Except.ok (), addAiRes := Except.ok () },
           [⟨"human", "old"⟩])], [⟨"ai", "z"⟩]⟩).delibHist = [] :=
  ⟨(clear_all_memory_idempotent
      ⟨[({ name := "MELCHIOR", invokeRes := Except.error "x",
           addUserRes := Except.ok (), addAiRes := Except.ok () },
         [⟨"human", "old"⟩])], [⟨"ai", "z"⟩]⟩).1,
   (clear_all_memory_idempotent
      ⟨[({ name := "MELCHIOR", invokeRes := Except.error "x",
           addUserRes := Except.ok (), addAiRes := Except.ok () },
         [⟨"human", "old"⟩])], [⟨"ai", "z"⟩]⟩).2.2⟩

end Magi
